import Mathlib

/-!
Verification of the batch-request core (`great_expectations/core/batch.py`).

The development shallowly embeds the Python module: Python values are the
inductive `PyVal`, dictionaries are association lists with Python insertion
semantics, fallible constructors return `Except PyErr`, and the external
collaborators that are not part of the source file (`IDDict.to_id`,
`convert_to_json_serializable`, `filter_properties_dict`) are modelled from
the specification, as marked on their doc comments.
-/

/-- A Python runtime value, as used by the batch module: `None`, booleans,
integers, strings, plain `dict`s and `IDDict`s (a `dict` subclass) as
association lists in insertion order, named callables, and opaque payload
objects carrying their type name and an identity address. -/
inductive PyVal where
  | none : PyVal
  | bool : Bool → PyVal
  | int : Int → PyVal
  | str : String → PyVal
  | dict : List (String × PyVal) → PyVal
  | iddict : List (String × PyVal) → PyVal
  | func : String → PyVal
  | obj : String → Nat → PyVal

/-- Python truthiness: `None`, `False`, `0`, the empty string and empty
dict-likes are falsy; callables and opaque objects are truthy. -/
def truthy : PyVal → Bool
  | .none => false
  | .bool b => b
  | .int n => n != 0
  | .str s => s != ""
  | .dict es => !es.isEmpty
  | .iddict es => !es.isEmpty
  | .func _ => true
  | .obj _ _ => true

/-- `x is None`. -/
def isNone : PyVal → Bool
  | .none => true
  | .bool _ => false
  | .int _ => false
  | .str _ => false
  | .dict _ => false
  | .iddict _ => false
  | .func _ => false
  | .obj _ _ => false

/-- `isinstance(x, str)`. -/
def isStr : PyVal → Bool
  | .none => false
  | .bool _ => false
  | .int _ => false
  | .str _ => true
  | .dict _ => false
  | .iddict _ => false
  | .func _ => false
  | .obj _ _ => false

/-- `isinstance(x, int)` (Python booleans are ints). -/
def isIntInst : PyVal → Bool
  | .none => false
  | .bool _ => true
  | .int _ => true
  | .str _ => false
  | .dict _ => false
  | .iddict _ => false
  | .func _ => false
  | .obj _ _ => false

/-- `isinstance(x, dict)` (`IDDict` is a `dict` subclass). -/
def isDictInst : PyVal → Bool
  | .none => false
  | .bool _ => false
  | .int _ => false
  | .str _ => false
  | .dict _ => true
  | .iddict _ => true
  | .func _ => false
  | .obj _ _ => false

/-- `type(x) == IDDict` — the exact-type check used by the assertion in
`BatchDefinition.__init__`. -/
def isIDDictExact : PyVal → Bool
  | .none => false
  | .bool _ => false
  | .int _ => false
  | .str _ => false
  | .dict _ => false
  | .iddict _ => true
  | .func _ => false
  | .obj _ _ => false

/-- The entry list of a dict-like value (empty for non-dicts). -/
def entriesOf : PyVal → List (String × PyVal)
  | .none => []
  | .bool _ => []
  | .int _ => []
  | .str _ => []
  | .dict es => es
  | .iddict es => es
  | .func _ => []
  | .obj _ _ => []

/-- `str(type(x))`, with the punctuation of CPython's rendering elided;
used where the source serializes a type name in place of a payload. -/
def pyTypeName : PyVal → String
  | .none => "class NoneType"
  | .bool _ => "class bool"
  | .int _ => "class int"
  | .str _ => "class str"
  | .dict _ => "class dict"
  | .iddict _ => "class IDDict"
  | .func _ => "class function"
  | .obj ty _ => "class " ++ ty

/-- `d.get(k)` / `d[k]` lookup on an association list: first occurrence. -/
def dget (es : List (String × PyVal)) (k : String) : Option PyVal :=
  (es.find? (fun kv => kv.1 == k)).map (fun kv => kv.2)

/-- `k in d`. -/
def hasKey (es : List (String × PyVal)) (k : String) : Bool :=
  es.any (fun kv => kv.1 == k)

/-- `d[k] = v` with Python insertion semantics: replace the value in place
if the key is present, otherwise append the new entry at the end. -/
def dset : List (String × PyVal) → String → PyVal → List (String × PyVal)
  | [], k, v => [(k, v)]
  | (k', v') :: t, k, v =>
      if k' == k then (k, v) :: t else (k', v') :: dset t k v

/-- `d.pop(k)`: the list with every entry for `k` removed. -/
def dpop (es : List (String × PyVal)) (k : String) : List (String × PyVal) :=
  es.filter (fun kv => kv.1 != k)

/-- A raised Python exception, by class and message. -/
inductive PyErr where
  | typeError : String → PyErr
  | valueError : String → PyErr
  | geTypeError : String → PyErr
  | assertionError : PyErr
  | attributeError : PyErr
deriving DecidableEq

mutual
/-- Modelled from the spec: the deterministic, order-independent content
hash behind `IDDict.to_id` (external collaborator `IdentifierDict`, not in
the source file).  Dict-like values hash to a commutative combination of
their entries, so the hash cannot depend on insertion order. -/
def hashVal : PyVal → Nat
  | .none => 0
  | .bool b => if b then 2 else 1
  | .int n => 3 + 2 * n.natAbs + (if n < 0 then 1 else 0)
  | .str s => 5 + s.length + 31 * (s.data.map Char.toNat).sum
  | .dict es => 7 + hashEntries es
  | .iddict es => 7 + hashEntries es
  | .func s => 11 + s.length
  | .obj ty _ => 13 + ty.length

/-- Order-independent combination of dict entries (a sum). -/
def hashEntries : List (String × PyVal) → Nat
  | [] => 0
  | (k, v) :: t => (17 + k.length + 31 * (k.data.map Char.toNat).sum) * (19 + hashVal v) + hashEntries t
end

/-- Modelled from the spec: `IDDict(...).to_id()` — the content hash of a
mapping, rendered as a string. -/
def toId (es : List (String × PyVal)) : String :=
  toString (hashEntries es)

mutual
/-- Modelled from the spec: `convert_to_json_serializable`, the external
JSON-serialization helper that recursively converts values to JSON-safe
primitives (dict subclasses become plain mappings; callables and opaque
objects are rendered by name). -/
def convertToJsonSerializable : PyVal → PyVal
  | .none => .none
  | .bool b => .bool b
  | .int n => .int n
  | .str s => .str s
  | .dict es => .dict (convertEntries es)
  | .iddict es => .dict (convertEntries es)
  | .func s => .str s
  | .obj ty _ => .str ty

/-- Pointwise conversion of dict entries. -/
def convertEntries : List (String × PyVal) → List (String × PyVal)
  | [] => []
  | (k, v) :: t => (k, convertToJsonSerializable v) :: convertEntries t
end

/-- Modelled from the spec: `filter_properties_dict(..., clean_falsy=True)`,
the external helper that strips every top-level key whose value is falsy
from a mapping. -/
def filterPropertiesDict (es : List (String × PyVal)) : List (String × PyVal) :=
  es.filter (fun kv => truthy kv.2)

/-! ## `BatchDefinition` -/

/-- The state of a constructed `BatchDefinition`: the three names, the
resolved identifiers, and the (identity-irrelevant) spec passthrough.
Field order: datasource_name, data_connector_name, data_asset_name,
batch_identifiers, batch_spec_passthrough. -/
structure BDObject where
  datasource_name : PyVal
  data_connector_name : PyVal
  data_asset_name : PyVal
  batch_identifiers : PyVal
  batch_spec_passthrough : PyVal

namespace BatchDefinition

/-- `BatchDefinition._validate_batch_definition`, translated clause by
clause: a `None` name is a `ValueError`, a truthy non-string name is a
`TypeError` naming the actual type, and truthy non-`IDDict` identifiers
are a `TypeError`. -/
def _validate_batch_definition (datasource_name data_connector_name data_asset_name batch_identifiers : PyVal) : Except PyErr Unit :=
  if isNone datasource_name then
    .error (.valueError "A valid datasource must be specified.")
  else if truthy datasource_name && !isStr datasource_name then
    .error (.typeError ("The type of an datasource name must be a string. The type given is " ++ pyTypeName datasource_name ++ ", which is illegal."))
  else if isNone data_connector_name then
    .error (.valueError "A valid data_connector must be specified.")
  else if truthy data_connector_name && !isStr data_connector_name then
    .error (.typeError ("The type of a data_connector name must be a string. The type given is " ++ pyTypeName data_connector_name ++ ", which is illegal."))
  else if isNone data_asset_name then
    .error (.valueError "A valid data_asset_name must be specified.")
  else if truthy data_asset_name && !isStr data_asset_name then
    .error (.typeError ("The type of a data_asset name must be a string. The type given is " ++ pyTypeName data_asset_name ++ ", which is illegal."))
  else if truthy batch_identifiers && !isIDDictExact batch_identifiers then
    .error (.typeError ("The type of batch_identifiers must be an IDDict object. The type given is " ++ pyTypeName batch_identifiers ++ ", which is illegal."))
  else
    .ok ()

/-- `BatchDefinition.__init__`: runs `_validate_batch_definition`, then the
source's `assert type(batch_identifiers) == IDDict`, then stores the
fields. -/
def init (datasource_name data_connector_name data_asset_name batch_identifiers : PyVal) (batch_spec_passthrough : PyVal := .none) : Except PyErr BDObject := do
  let _ ← _validate_batch_definition datasource_name data_connector_name data_asset_name batch_identifiers
  if isIDDictExact batch_identifiers then
    .ok (BDObject.mk datasource_name data_connector_name data_asset_name batch_identifiers batch_spec_passthrough)
  else
    .error .assertionError

/-- `BatchDefinition.to_json_dict`: the JSON-safe projection of exactly the
four identity-relevant fields; `batch_spec_passthrough` is excluded. -/
def to_json_dict (o : BDObject) : PyVal :=
  convertToJsonSerializable (.dict [
    ("datasource_name", o.datasource_name),
    ("data_connector_name", o.data_connector_name),
    ("data_asset_name", o.data_asset_name),
    ("batch_identifiers", o.batch_identifiers)])

/-- `BatchDefinition.id`: `IDDict(self.to_json_dict()).to_id()`. -/
def id (o : BDObject) : String :=
  toId (entriesOf (to_json_dict o))

/-- `BatchDefinition.__eq__` restricted to the same-class case: equality
holds exactly when the ids match. -/
def beq (a b : BDObject) : Bool :=
  id a == id b

end BatchDefinition

/-! ## `BatchRequestBase` / `BatchRequest` / `RuntimeBatchRequest` -/

/-- The state of a constructed request object.  `isRuntime` distinguishes a
`RuntimeBatchRequest` from a plain `BatchRequest`.  Field order: isRuntime,
datasource_name, data_connector_name, data_asset_name,
data_connector_query, limit, runtime_parameters, batch_identifiers,
batch_spec_passthrough. -/
structure BRObject where
  isRuntime : Bool
  datasource_name : PyVal
  data_connector_name : PyVal
  data_asset_name : PyVal
  data_connector_query : PyVal
  limit : PyVal
  runtime_parameters : PyVal
  batch_identifiers : PyVal
  batch_spec_passthrough : PyVal

namespace BatchRequestBase

/-- The `data_connector_query` handling inside
`BatchRequestBase.to_json_dict`: when non-`None`, deep-copy the mapping and
replace a non-`None` `custom_filter_function` entry by the callable's
`__name__`.  A non-mapping value, or a `custom_filter_function` without a
`__name__`, raises `AttributeError` in the source. -/
def processDcq : PyVal → Except PyErr PyVal
  | .none => .ok .none
  | .dict es =>
      match dget es "custom_filter_function" with
      | Option.some (.func name) => .ok (.dict (dset es "custom_filter_function" (.str name)))
      | Option.some .none => .ok (.dict es)
      | Option.some _ => .error .attributeError
      | Option.none => .ok (.dict es)
  | .iddict es =>
      match dget es "custom_filter_function" with
      | Option.some (.func name) => .ok (.iddict (dset es "custom_filter_function" (.str name)))
      | Option.some .none => .ok (.iddict es)
      | Option.some _ => .error .attributeError
      | Option.none => .ok (.iddict es)
  | _ => .error .attributeError

/-- The `runtime_parameters` projection inside
`BatchRequestBase.to_json_dict`: drop the `batch_data` entry, then append a
`batch_data` entry holding `str(type(payload))` when the payload is
non-`None`. -/
def processRp (es : List (String × PyVal)) : PyVal :=
  let kept := es.filter (fun kv => kv.1 != "batch_data")
  match dget es "batch_data" with
  | Option.some v =>
      if isNone v then .dict kept
      else .dict (dset kept "batch_data" (.str (pyTypeName v)))
  | Option.none => .dict kept

/-- `BatchRequestBase.to_json_dict`, translated statement by statement:
the three names and the processed `data_connector_query`, then
`batch_spec_passthrough`, `limit` and `batch_identifiers` each added only
when non-`None`, then the projected `runtime_parameters` when non-`None`,
and finally the falsy-valued keys stripped by `filter_properties_dict`. -/
def to_json_dict (o : BRObject) : Except PyErr PyVal := do
  let dcq ← processDcq o.data_connector_query
  let base := [
    ("datasource_name", o.datasource_name),
    ("data_connector_name", o.data_connector_name),
    ("data_asset_name", o.data_asset_name),
    ("data_connector_query", dcq)]
  let base := if !isNone o.batch_spec_passthrough then base ++ [("batch_spec_passthrough", o.batch_spec_passthrough)] else base
  let base := if !isNone o.limit then base ++ [("limit", o.limit)] else base
  let base := if !isNone o.batch_identifiers then base ++ [("batch_identifiers", o.batch_identifiers)] else base
  let base ← match o.runtime_parameters with
    | .none => pure base
    | .dict es => pure (base ++ [("runtime_parameters", processRp es)])
    | .iddict es => pure (base ++ [("runtime_parameters", processRp es)])
    | _ => Except.error PyErr.attributeError
  .ok (.dict (filterPropertiesDict base))

/-- `BatchRequestBase.id`: `IDDict(self.to_json_dict()).to_id()`. -/
def id (o : BRObject) : Except PyErr String := do
  let j ← to_json_dict o
  .ok (toId (entriesOf j))

end BatchRequestBase

namespace BatchRequest

/-- `BatchRequest._validate_init_parameters`, clause by clause. -/
def _validate_init_parameters (datasource_name data_connector_name data_asset_name : PyVal) (data_connector_query : PyVal := .none) (limit : PyVal := .none) : Except PyErr Unit :=
  if !(truthy datasource_name && isStr datasource_name) then
    .error (.typeError ("The type of an datasource name must be a string. The type given is " ++ pyTypeName datasource_name ++ ", which is illegal."))
  else if !(truthy data_connector_name && isStr data_connector_name) then
    .error (.typeError ("The type of data_connector name must be a string. The type given is " ++ pyTypeName data_connector_name ++ ", which is illegal."))
  else if !(truthy data_asset_name && isStr data_asset_name) then
    .error (.typeError ("The type of data_asset name must be a string. The type given is " ++ pyTypeName data_asset_name ++ ", which is illegal."))
  else if truthy data_connector_query && !isDictInst data_connector_query then
    .error (.typeError ("The type of data_connector_query must be a dict object. The type given is " ++ pyTypeName data_connector_query ++ ", which is illegal."))
  else if truthy limit && !isIntInst limit then
    .error (.typeError ("The type of limit must be an integer. The type given is " ++ pyTypeName limit ++ ", which is illegal."))
  else
    .ok ()

/-- `BatchRequest.__init__`: validate, then store via the base
constructor (`runtime_parameters` and `batch_identifiers` are not set). -/
def init (datasource_name data_connector_name data_asset_name : PyVal) (data_connector_query : PyVal := .none) (limit : PyVal := .none) (batch_spec_passthrough : PyVal := .none) : Except PyErr BRObject := do
  let _ ← _validate_init_parameters datasource_name data_connector_name data_asset_name data_connector_query limit
  .ok (BRObject.mk false datasource_name data_connector_name data_asset_name data_connector_query limit .none .none batch_spec_passthrough)

/-- `BatchRequest._validate_runtime_batch_request_specific_init_parameters`,
clause by clause: `runtime_parameters` and `batch_identifiers` must each be
truthy `dict` instances, and a truthy non-dict `batch_spec_passthrough` is
rejected. -/
def _validate_runtime_batch_request_specific_init_parameters (runtime_parameters batch_identifiers : PyVal) (batch_spec_passthrough : PyVal := .none) : Except PyErr Unit :=
  if !(truthy runtime_parameters && isDictInst runtime_parameters) then
    .error (.typeError ("The type for runtime_parameters must be a dict object. The type given is " ++ pyTypeName runtime_parameters ++ ", which is illegal."))
  else if !(truthy batch_identifiers && isDictInst batch_identifiers) then
    .error (.typeError ("The type for batch_identifiers must be a dict object. The type given is " ++ pyTypeName batch_identifiers ++ ", which is illegal."))
  else if truthy batch_spec_passthrough && !isDictInst batch_spec_passthrough then
    .error (.typeError ("The type for batch_spec_passthrough must be a dict object. The type given is " ++ pyTypeName batch_spec_passthrough ++ ", which is illegal."))
  else
    .ok ()

end BatchRequest

namespace RuntimeBatchRequest

/-- `RuntimeBatchRequest.__init__`: first delegates to the `BatchRequest`
parent constructor with `data_connector_query` and `limit` absent, then
runs the runtime-specific validation, then stores the supplied
`runtime_parameters` and `batch_identifiers`. -/
def init (datasource_name data_connector_name data_asset_name runtime_parameters batch_identifiers : PyVal) (batch_spec_passthrough : PyVal := .none) : Except PyErr BRObject := do
  let base ← BatchRequest.init datasource_name data_connector_name data_asset_name .none .none batch_spec_passthrough
  let _ ← BatchRequest._validate_runtime_batch_request_specific_init_parameters runtime_parameters batch_identifiers batch_spec_passthrough
  .ok { base with isRuntime := true, runtime_parameters := runtime_parameters, batch_identifiers := batch_identifiers }

end RuntimeBatchRequest

/-! ## The reconciliation function
`get_batch_request_from_acceptable_arguments` -/

/-- The `batch_request` argument: absent (`None`), an actual
`BatchRequest`/`RuntimeBatchRequest` instance (always truthy), or some
other value with its type name and truthiness. -/
inductive BRArg where
  | absent : BRArg
  | req : BRObject → BRArg
  | other : String → Bool → BRArg

/-- Truthiness of the `batch_request` argument (`if batch_request:`). -/
def BRArg.isTruthy : BRArg → Bool
  | .absent => false
  | .req _ => true
  | .other _ t => t

/-- The full keyword-argument surface of
`get_batch_request_from_acceptable_arguments`; every optional argument
defaults to `None`, and `kwargs` is the extra-keyword catch-all (a dict,
empty when no extra keywords are supplied). -/
structure GbrArgs where
  datasource_name : PyVal := .none
  data_connector_name : PyVal := .none
  data_asset_name : PyVal := .none
  batch_request : BRArg := .absent
  batch_data : PyVal := .none
  data_connector_query : PyVal := .none
  batch_identifiers : PyVal := .none
  limit : PyVal := .none
  index : PyVal := .none
  custom_filter_function : PyVal := .none
  batch_spec_passthrough : PyVal := .none
  sampling_method : PyVal := .none
  sampling_kwargs : PyVal := .none
  splitter_method : PyVal := .none
  splitter_kwargs : PyVal := .none
  runtime_parameters : PyVal := .none
  query : PyVal := .none
  path : PyVal := .none
  batch_filter_parameters : PyVal := .none
  kwargs : List (String × PyVal) := []

/-- What a call leaves behind: the returned request or the raised
exception, the caller-visible content of the `runtime_parameters` argument
after the call (the source mutates a truthy caller-supplied mapping in
place), and whether the deprecation warning for `batch_identifiers` was
logged. -/
structure GbrOutcome where
  result : Except PyErr BRObject
  rpAfter : PyVal
  warned : Bool

/-- `k in container`: key membership for dict-likes, substring test for
strings, `TypeError` otherwise. -/
def pyInCheck (container : PyVal) (k : String) : Except PyErr Bool :=
  match container with
  | .dict es => .ok (hasKey es k)
  | .iddict es => .ok (hasKey es k)
  | .str s => .ok (k.isEmpty || decide (2 ≤ (s.splitOn k).length))
  | _ => .error (.typeError ("argument of type " ++ pyTypeName container ++ " is not iterable"))

/-- `d[k] = v`: item assignment, a `TypeError` on a non-dict. -/
def setItem (d : PyVal) (k : String) (v : PyVal) : Except PyErr PyVal :=
  match d with
  | .dict es => .ok (.dict (dset es k v))
  | .iddict es => .ok (.iddict (dset es k v))
  | _ => .error (.typeError (pyTypeName d ++ " object does not support item assignment"))

/-- Step 1 of the reconciliation function: when `batch_request` is truthy
it must be a `BatchRequest` instance (else `TypeError`), and
`datasource_name` is replaced by the one extracted from it. -/
def gbrEffectiveDs (a : GbrArgs) : Except PyErr PyVal :=
  match a.batch_request with
  | .absent => .ok a.datasource_name
  | .req o => .ok o.datasource_name
  | .other ty t =>
      if t then .error (.typeError ("batch_request must be an instance of BatchRequest object, not " ++ ty))
      else .ok a.datasource_name

/-- How many of `batch_data`, `query`, `path` are non-`None`. -/
def gbrExclusivityCount (a : GbrArgs) : Nat :=
  (if !isNone a.batch_data then 1 else 0)
    + (if !isNone a.query then 1 else 0)
    + (if !isNone a.path then 1 else 0)

/-- The cross-collision check: a singular argument is given while the same
concept appears as a key inside `runtime_parameters`.  As in the source,
the first two conjuncts of each clause guard the `in` test, and all three
clauses are evaluated before `any`. -/
def collisionTest (a : GbrArgs) : Except PyErr Bool := do
  let c1 ← if !isNone a.batch_data && truthy a.runtime_parameters
           then pyInCheck a.runtime_parameters "batch_data" else pure false
  let c2 ← if truthy a.query && truthy a.runtime_parameters
           then pyInCheck a.runtime_parameters "query" else pure false
  let c3 ← if truthy a.path && truthy a.runtime_parameters
           then pyInCheck a.runtime_parameters "path" else pure false
  pure (c1 || c2 || c3)

/-- Branch A, lines 712-734 of the source: merge the singular argument
into `runtime_parameters` (mutating the caller's mapping when it was
truthy, hence aliased), fall back to the extra keywords when
`batch_identifiers` is absent, and construct a `RuntimeBatchRequest`. -/
def runtimeBranch (a : GbrArgs) (ds : PyVal) : GbrOutcome :=
  let aliased := truthy a.runtime_parameters
  let rpObj : PyVal := if aliased then a.runtime_parameters else .dict []
  let merged : Except PyErr PyVal :=
    if !isNone a.batch_data then setItem rpObj "batch_data" a.batch_data
    else if !isNone a.query then setItem rpObj "query" a.query
    else if !isNone a.path then setItem rpObj "path" a.path
    else .ok rpObj
  match merged with
  | .error e => GbrOutcome.mk (.error e) a.runtime_parameters false
  | .ok rpMerged =>
    let rpAfter := if aliased then rpMerged else a.runtime_parameters
    let bi := if isNone a.batch_identifiers then PyVal.dict a.kwargs else a.batch_identifiers
    GbrOutcome.mk
      (RuntimeBatchRequest.init ds a.data_connector_name a.data_asset_name rpMerged bi a.batch_spec_passthrough)
      rpAfter false

/-- Branch B, lines 735-789 of the source: resolve the filter parameters
(with the deprecated `batch_identifiers` alias and its warning), assemble
`data_connector_query` as an `IDDict`, synthesize `batch_spec_passthrough`
from the sampling/splitter arguments when absent, and construct a
`BatchRequest` (note the source does not pass `limit` to the constructor;
it lives inside the query). -/
def catalogBranch (a : GbrArgs) (ds : PyVal) : GbrOutcome :=
  let dcqRes : Except PyErr (PyVal × Bool) :=
    if isNone a.data_connector_query then
      if !isNone a.batch_filter_parameters && !isNone a.batch_identifiers then
        .error (.valueError "Must provide either batch_filter_parameters or batch_identifiers, not both.")
      else
        let resolved : PyVal × Bool :=
          if isNone a.batch_filter_parameters && !isNone a.batch_identifiers then
            (a.batch_identifiers, true)
          else if isNone a.batch_filter_parameters && isNone a.batch_identifiers then
            (PyVal.dict a.kwargs, false)
          else
            (a.batch_filter_parameters, false)
        .ok (.iddict [
          ("batch_filter_parameters", resolved.1),
          ("limit", a.limit),
          ("index", a.index),
          ("custom_filter_function", a.custom_filter_function)], resolved.2)
    else
      match a.data_connector_query with
      | .dict es => .ok (.iddict es, false)
      | .iddict es => .ok (.iddict es, false)
      | v => .error (.typeError (pyTypeName v ++ " object is not convertible to IDDict"))
  match dcqRes with
  | .error e => GbrOutcome.mk (.error e) a.runtime_parameters false
  | .ok dcqw =>
    let bsp := if isNone a.batch_spec_passthrough then
        PyVal.dict (
          (if !isNone a.sampling_method then
            [("sampling_method", a.sampling_method)]
              ++ (if !isNone a.sampling_kwargs then [("sampling_kwargs", a.sampling_kwargs)] else [])
          else [])
          ++ (if !isNone a.splitter_method then
            [("splitter_method", a.splitter_method)]
              ++ (if !isNone a.splitter_kwargs then [("splitter_kwargs", a.splitter_kwargs)] else [])
          else []))
      else a.batch_spec_passthrough
    GbrOutcome.mk
      (BatchRequest.init ds a.data_connector_name a.data_asset_name dcqw.1 .none bsp)
      a.runtime_parameters dcqw.2

/-- `get_batch_request_from_acceptable_arguments`, translated statement by
statement: extract/validate the datasource name, enforce mutual
exclusivity of `batch_data`/`query`/`path`, run the cross-collision check,
short-circuit on a supplied `batch_request`, then dispatch to the runtime
or catalog branch. -/
def get_batch_request_from_acceptable_arguments (a : GbrArgs) : GbrOutcome :=
  match gbrEffectiveDs a with
  | .error e => GbrOutcome.mk (.error e) a.runtime_parameters false
  | .ok ds =>
    if !isStr ds then
      GbrOutcome.mk
        (.error (.geTypeError ("the first parameter, datasource_name, must be a str, not " ++ pyTypeName ds)))
        a.runtime_parameters false
    else if 1 < gbrExclusivityCount a then
      GbrOutcome.mk (.error (.valueError "Must provide only one of batch_data, query, or path."))
        a.runtime_parameters false
    else
      match collisionTest a with
      | .error e => GbrOutcome.mk (.error e) a.runtime_parameters false
      | .ok true =>
          GbrOutcome.mk
            (.error (.valueError "If batch_data, query, or path arguments are provided, the same keys cannot appear in the runtime_parameters argument."))
            a.runtime_parameters false
      | .ok false =>
        match a.batch_request with
        | .req o => GbrOutcome.mk (.ok o) a.runtime_parameters false
        | _ =>
          if !isNone a.batch_data || truthy a.query || truthy a.path || truthy a.runtime_parameters then
            runtimeBranch a ds
          else
            catalogBranch a ds

/-! ## Duplication of a `RuntimeBatchRequest` (`__deepcopy__`)

Reference identity matters only for the two mutable dict attributes of the
instance (`_runtime_parameters`, `_batch_identifiers`) and for the opaque
payload objects their entries may hold, so the model gives addresses to
exactly those: a `World` maps a dict address to its entries, `PyVal.obj`
carries a payload address, and every other value is immutable.  Python's
stdlib `copy.deepcopy` (not repository code) is modelled as allocating
fresh addresses for both dicts and for every payload object reachable from
them; the source's custom `__deepcopy__` is translated around it.  The
`__deepcopy__`-attribute shadowing the source uses to reach the default
mechanism is a CPython dispatch detail with no observable effect on the
copied data and is not represented. -/

/-- The mutable part of the world: dict contents by address, plus the
allocation bound (every live address is below `next`). -/
structure World where
  mem : Nat → List (String × PyVal)
  next : Nat

/-- The identity-bearing attributes of a `RuntimeBatchRequest` instance:
the addresses of its `_runtime_parameters` and `_batch_identifiers`
dicts. -/
structure RBRRef where
  rpAddr : Nat
  biAddr : Nat

/-- Well-formed instance-in-world: distinct live addresses. -/
def World.wf (w : World) (r : RBRRef) : Prop :=
  r.rpAddr < w.next ∧ r.biAddr < w.next ∧ r.rpAddr ≠ r.biAddr

/-- Deep copy of one stored value: an opaque payload is duplicated at a
fresh address (shifted beyond every live one); immutable values are kept. -/
def refreshVal (n : Nat) : PyVal → PyVal
  | .obj ty a => .obj ty (a + n)
  | v => v

/-- Deep copy of a dict's entries. -/
def refreshEntries (n : Nat) (es : List (String × PyVal)) : List (String × PyVal) :=
  es.map (fun kv => (kv.1, refreshVal n kv.2))

/-- Modelled from the spec: Python's default `copy.deepcopy` of the
instance — both attribute dicts are copied to fresh addresses and every
payload object inside them is duplicated. -/
def copyDeepcopy (w : World) (r : RBRRef) : World × RBRRef :=
  let rpNew := 2 * w.next
  let biNew := 2 * w.next + 1
  (World.mk
    (fun a =>
      if a = rpNew then refreshEntries w.next (w.mem r.rpAddr)
      else if a = biNew then refreshEntries w.next (w.mem r.biAddr)
      else w.mem a)
    (2 * w.next + 2),
   RBRRef.mk rpNew biNew)

/-- `RuntimeBatchRequest.__deepcopy__`: when `runtime_parameters` holds a
`batch_data` entry, pop it, default-copy the rest, then re-insert the very
same value into both the copy's and the original's mapping (each gains it
back at the end); otherwise fall through to the default deep copy. -/
def RuntimeBatchRequest.deepcopy (w : World) (r : RBRRef) : World × RBRRef :=
  let rpEntries := w.mem r.rpAddr
  if hasKey rpEntries "batch_data" then
    let bd := (dget rpEntries "batch_data").getD .none
    let popped := dpop rpEntries "batch_data"
    let rpNew := 2 * w.next
    let biNew := 2 * w.next + 1
    (World.mk
      (fun a =>
        if a = rpNew then dset (refreshEntries w.next popped) "batch_data" bd
        else if a = biNew then refreshEntries w.next (w.mem r.biAddr)
        else if a = r.rpAddr then dset popped "batch_data" bd
        else w.mem a)
      (2 * w.next + 2),
     RBRRef.mk rpNew biNew)
  else
    copyDeepcopy w r

/-- Mutating one dict in the world: `d[k] = v` at an address. -/
def World.setKey (w : World) (addr : Nat) (k : String) (v : PyVal) : World :=
  World.mk (fun a => if a = addr then dset (w.mem a) k v else w.mem a) w.next

/-! ## The specification's description of `to_json_dict` (for the
refinement claim C5) -/

/-- Written from the spec's words for `to_canonical_form()` on the base
variant: the `custom_filter_function` entry of the connector query, when
given as a callable, is replaced by its function name, never the callable
itself. -/
def specReplaceFilterFn (q : PyVal) : PyVal :=
  match q with
  | .dict es =>
      match dget es "custom_filter_function" with
      | Option.some (.func name) => .dict (dset es "custom_filter_function" (.str name))
      | _ => .dict es
  | .iddict es =>
      match dget es "custom_filter_function" with
      | Option.some (.func name) => .iddict (dset es "custom_filter_function" (.str name))
      | _ => .iddict es
  | v => v

/-- Written from the spec's words: the `runtime_parameters` projection —
the `batch_data` entry is replaced by its type's name (the payload is
never serialized) and all other entries pass through verbatim. -/
def specRuntimeParams (es : List (String × PyVal)) : PyVal :=
  match dget es "batch_data" with
  | Option.some payload =>
      if isNone payload then
        .dict (es.filter (fun kv => kv.1 != "batch_data"))
      else
        .dict (dset (es.filter (fun kv => kv.1 != "batch_data")) "batch_data" (.str (pyTypeName payload)))
  | Option.none => .dict es

/-- Written from the spec's words (claim C5): a JSON-safe mapping holding
the three names and the connector query (filter callable replaced by its
name), then `batch_spec_passthrough` and `limit` only when non-null, then
`batch_identifiers` when present, then the projected `runtime_parameters`
when present, with every falsy-valued key stripped from the result. -/
def specBatchRequestJson (o : BRObject) : PyVal :=
  let withNames : List (String × PyVal) := [
    ("datasource_name", o.datasource_name),
    ("data_connector_name", o.data_connector_name),
    ("data_asset_name", o.data_asset_name),
    ("data_connector_query", specReplaceFilterFn o.data_connector_query)]
  let withPassthrough :=
    withNames ++ (if isNone o.batch_spec_passthrough then [] else [("batch_spec_passthrough", o.batch_spec_passthrough)])
  let withLimit :=
    withPassthrough ++ (if isNone o.limit then [] else [("limit", o.limit)])
  let withIdentifiers :=
    withLimit ++ (if isNone o.batch_identifiers then [] else [("batch_identifiers", o.batch_identifiers)])
  let withRuntime :=
    withIdentifiers ++ (match o.runtime_parameters with
      | .none => []
      | rp => [("runtime_parameters", specRuntimeParams (entriesOf rp))])
  .dict (withRuntime.filter (fun kv => truthy kv.2))


/-! ## Concrete fixtures and claim-level predicates -/

/-- A concrete valid `BatchRequest` instance used as a fixture. -/
def sampleRequest : BRObject :=
  BRObject.mk false (.str "d") (.str "c") (.str "a") .none .none .none .none .none

/-- The `custom_filter_function` entry of a connector query, when present
and non-`None`, is a callable (the shape under which `to_json_dict` is
defined in the source; anything else raises `AttributeError` there). -/
def cffClean (q : PyVal) : Prop :=
  q = .none ∨ (∃ es, (q = .dict es ∨ q = .iddict es) ∧
    (dget es "custom_filter_function" = Option.none
      ∨ dget es "custom_filter_function" = some .none
      ∨ ∃ n, dget es "custom_filter_function" = some (.func n)))

/-- `runtime_parameters` is absent or a mapping (the only shapes
`to_json_dict` accepts; `.items()` on anything else raises). -/
def rpShape (rp : PyVal) : Prop :=
  rp = .none ∨ ∃ es, rp = .dict es ∨ rp = .iddict es

/-- Whether a fallible result is a raised `TypeError`. -/
def isTypeErrorResult {α : Type} : Except PyErr α → Bool
  | .error (.typeError _) => true
  | _ => false

/-- A concrete world for the duplication fixture: the instance's
`runtime_parameters` dict lives at address 0 (holding a payload object at
address 7), its `batch_identifiers` dict at address 1. -/
def sampleWorld : World :=
  World.mk (fun a => if a = 0 then [("batch_data", .obj "DataFrame" 7), ("q", .str "x")]
    else if a = 1 then [("k", .str "v")] else []) 8

/-- The fixture instance's attribute addresses. -/
def sampleRef : RBRRef := RBRRef.mk 0 1

/-! ## Supporting lemmas -/

theorem dget_nil (k : String) : dget [] k = Option.none := rfl

theorem dget_cons (k₀ : String) (v₀ : PyVal) (t : List (String × PyVal)) (k : String) :
    dget ((k₀, v₀) :: t) k = if k₀ = k then some v₀ else dget t k := by
  by_cases h : k₀ = k
  · simp [dget, List.find?_cons_of_pos, h]
  · rw [dget, List.find?_cons_of_neg _ (by simpa using h)]
    simp [dget, h]

theorem dset_cons (k₀ : String) (v₀ : PyVal) (t : List (String × PyVal)) (k : String) (v : PyVal) :
    dset ((k₀, v₀) :: t) k v = if k₀ = k then (k, v) :: t else (k₀, v₀) :: dset t k v := by
  by_cases h : k₀ = k <;> simp [dset, h]

theorem dpop_cons (k₀ : String) (v₀ : PyVal) (t : List (String × PyVal)) (k : String) :
    dpop ((k₀, v₀) :: t) k = if k₀ = k then dpop t k else (k₀, v₀) :: dpop t k := by
  by_cases h : k₀ = k <;> simp [dpop, List.filter_cons, bne_iff_ne, h]

theorem dget_dset_self (es : List (String × PyVal)) (k : String) (v : PyVal) :
    dget (dset es k v) k = some v := by
  induction es with
  | nil => simp [dset, dget_cons]
  | cons kv t ih =>
    obtain ⟨k₀, v₀⟩ := kv
    by_cases h : k₀ = k
    · simp [dset_cons, h, dget_cons]
    · simp [dset_cons, h, dget_cons, ih]

theorem dget_dset_ne (es : List (String × PyVal)) (k k' : String) (v : PyVal)
    (h : k' ≠ k) : dget (dset es k v) k' = dget es k' := by
  have h2 : k ≠ k' := Ne.symm h
  induction es with
  | nil => simp [dset, dget_cons, h2]
  | cons kv t ih =>
    obtain ⟨k₀, v₀⟩ := kv
    by_cases h0 : k₀ = k
    · subst h0
      simp [dset_cons, dget_cons, h2]
    · simp [dset_cons, h0, dget_cons, ih]

theorem dget_dpop_ne (es : List (String × PyVal)) (k k' : String) (h : k' ≠ k) :
    dget (dpop es k) k' = dget es k' := by
  have h2 : k ≠ k' := Ne.symm h
  induction es with
  | nil => simp [dpop, dget]
  | cons kv t ih =>
    obtain ⟨k₀, v₀⟩ := kv
    by_cases h0 : k₀ = k
    · subst h0
      simp [dpop_cons, dget_cons, h2, ih]
    · simp [dpop_cons, h0, dget_cons, ih]

theorem hasKey_eq_isSome (es : List (String × PyVal)) (k : String) :
    hasKey es k = (dget es k).isSome := by
  induction es with
  | nil => simp [hasKey, dget]
  | cons kv t ih =>
    obtain ⟨k₀, v₀⟩ := kv
    by_cases h0 : k₀ = k
    · simp [hasKey, dget_cons, h0, List.any_cons]
    · have hb : (k₀ == k) = false := by simpa using h0
      rw [hasKey, List.any_cons, hb, dget_cons, if_neg h0, Bool.false_or]
      simpa [hasKey] using ih

theorem hashEntries_eq_sum (es : List (String × PyVal)) :
    hashEntries es
      = (es.map (fun kv =>
          (17 + kv.1.length + 31 * (kv.1.data.map Char.toNat).sum) * (19 + hashVal kv.2))).sum := by
  induction es with
  | nil => simp [hashEntries]
  | cons kv t ih => simp [hashEntries, ih]

theorem hashEntries_perm (es es' : List (String × PyVal)) (h : es.Perm es') :
    hashEntries es = hashEntries es' := by
  rw [hashEntries_eq_sum, hashEntries_eq_sum]
  exact List.Perm.sum_eq (List.Perm.map _ h)

theorem convertEntries_eq_map (es : List (String × PyVal)) :
    convertEntries es = es.map (fun kv => (kv.1, convertToJsonSerializable kv.2)) := by
  induction es with
  | nil => simp [convertEntries]
  | cons kv t ih => simp [convertEntries, ih]

/-! ### Constructor-level simp equations for the Python-semantics helpers -/

@[simp] theorem isNone_none : isNone PyVal.none = true := rfl
@[simp] theorem isNone_bool (b : Bool) : isNone (PyVal.bool b) = false := rfl
@[simp] theorem isNone_int (n : Int) : isNone (PyVal.int n) = false := rfl
@[simp] theorem isNone_str (s : String) : isNone (PyVal.str s) = false := rfl
@[simp] theorem isNone_dict (es : List (String × PyVal)) : isNone (PyVal.dict es) = false := rfl
@[simp] theorem isNone_iddict (es : List (String × PyVal)) : isNone (PyVal.iddict es) = false := rfl
@[simp] theorem isNone_func (s : String) : isNone (PyVal.func s) = false := rfl
@[simp] theorem isNone_obj (ty : String) (a : Nat) : isNone (PyVal.obj ty a) = false := rfl

@[simp] theorem isStr_none : isStr PyVal.none = false := rfl
@[simp] theorem isStr_bool (b : Bool) : isStr (PyVal.bool b) = false := rfl
@[simp] theorem isStr_int (n : Int) : isStr (PyVal.int n) = false := rfl
@[simp] theorem isStr_str (s : String) : isStr (PyVal.str s) = true := rfl
@[simp] theorem isStr_dict (es : List (String × PyVal)) : isStr (PyVal.dict es) = false := rfl
@[simp] theorem isStr_iddict (es : List (String × PyVal)) : isStr (PyVal.iddict es) = false := rfl
@[simp] theorem isStr_func (s : String) : isStr (PyVal.func s) = false := rfl
@[simp] theorem isStr_obj (ty : String) (a : Nat) : isStr (PyVal.obj ty a) = false := rfl

@[simp] theorem isIntInst_none : isIntInst PyVal.none = false := rfl
@[simp] theorem isIntInst_bool (b : Bool) : isIntInst (PyVal.bool b) = true := rfl
@[simp] theorem isIntInst_int (n : Int) : isIntInst (PyVal.int n) = true := rfl
@[simp] theorem isIntInst_str (s : String) : isIntInst (PyVal.str s) = false := rfl
@[simp] theorem isIntInst_dict (es : List (String × PyVal)) : isIntInst (PyVal.dict es) = false := rfl
@[simp] theorem isIntInst_iddict (es : List (String × PyVal)) : isIntInst (PyVal.iddict es) = false := rfl
@[simp] theorem isIntInst_func (s : String) : isIntInst (PyVal.func s) = false := rfl
@[simp] theorem isIntInst_obj (ty : String) (a : Nat) : isIntInst (PyVal.obj ty a) = false := rfl

@[simp] theorem isDictInst_none : isDictInst PyVal.none = false := rfl
@[simp] theorem isDictInst_bool (b : Bool) : isDictInst (PyVal.bool b) = false := rfl
@[simp] theorem isDictInst_int (n : Int) : isDictInst (PyVal.int n) = false := rfl
@[simp] theorem isDictInst_str (s : String) : isDictInst (PyVal.str s) = false := rfl
@[simp] theorem isDictInst_dict (es : List (String × PyVal)) : isDictInst (PyVal.dict es) = true := rfl
@[simp] theorem isDictInst_iddict (es : List (String × PyVal)) : isDictInst (PyVal.iddict es) = true := rfl
@[simp] theorem isDictInst_func (s : String) : isDictInst (PyVal.func s) = false := rfl
@[simp] theorem isDictInst_obj (ty : String) (a : Nat) : isDictInst (PyVal.obj ty a) = false := rfl

@[simp] theorem isIDDictExact_none : isIDDictExact PyVal.none = false := rfl
@[simp] theorem isIDDictExact_bool (b : Bool) : isIDDictExact (PyVal.bool b) = false := rfl
@[simp] theorem isIDDictExact_int (n : Int) : isIDDictExact (PyVal.int n) = false := rfl
@[simp] theorem isIDDictExact_str (s : String) : isIDDictExact (PyVal.str s) = false := rfl
@[simp] theorem isIDDictExact_dict (es : List (String × PyVal)) : isIDDictExact (PyVal.dict es) = false := rfl
@[simp] theorem isIDDictExact_iddict (es : List (String × PyVal)) : isIDDictExact (PyVal.iddict es) = true := rfl
@[simp] theorem isIDDictExact_func (s : String) : isIDDictExact (PyVal.func s) = false := rfl
@[simp] theorem isIDDictExact_obj (ty : String) (a : Nat) : isIDDictExact (PyVal.obj ty a) = false := rfl

@[simp] theorem truthy_none : truthy PyVal.none = false := rfl
@[simp] theorem truthy_bool (b : Bool) : truthy (PyVal.bool b) = b := rfl
@[simp] theorem truthy_int (n : Int) : truthy (PyVal.int n) = (n != 0) := rfl
@[simp] theorem truthy_str (s : String) : truthy (PyVal.str s) = (s != "") := rfl
@[simp] theorem truthy_dict (es : List (String × PyVal)) : truthy (PyVal.dict es) = !es.isEmpty := rfl
@[simp] theorem truthy_iddict (es : List (String × PyVal)) : truthy (PyVal.iddict es) = !es.isEmpty := rfl
@[simp] theorem truthy_func (s : String) : truthy (PyVal.func s) = true := rfl
@[simp] theorem truthy_obj (ty : String) (a : Nat) : truthy (PyVal.obj ty a) = true := rfl

@[simp] theorem entriesOf_none : entriesOf PyVal.none = [] := rfl
@[simp] theorem entriesOf_bool (b : Bool) : entriesOf (PyVal.bool b) = [] := rfl
@[simp] theorem entriesOf_int (n : Int) : entriesOf (PyVal.int n) = [] := rfl
@[simp] theorem entriesOf_str (s : String) : entriesOf (PyVal.str s) = [] := rfl
@[simp] theorem entriesOf_dict (es : List (String × PyVal)) : entriesOf (PyVal.dict es) = es := rfl
@[simp] theorem entriesOf_iddict (es : List (String × PyVal)) : entriesOf (PyVal.iddict es) = es := rfl
@[simp] theorem entriesOf_func (s : String) : entriesOf (PyVal.func s) = [] := rfl
@[simp] theorem entriesOf_obj (ty : String) (a : Nat) : entriesOf (PyVal.obj ty a) = [] := rfl


/-! ## The claims -/

/-- C1 (counterexample): a call in which two of batch_data, query and path
are simultaneously non-null but datasource_name is left None raises the
datasource GreatExpectationsTypeError, not the ambiguous-specification
ValueError the claim promises for every such call — the datasource check
runs first. -/
theorem C1_counterexample :
    (get_batch_request_from_acceptable_arguments
      { batch_data := .int 1, query := .str "q" }).result
      = Except.error (PyErr.geTypeError "the first parameter, datasource_name, must be a str, not class NoneType")
    ∧ (get_batch_request_from_acceptable_arguments
      { batch_data := .int 1, query := .str "q" }).result
      ≠ Except.error (PyErr.valueError "Must provide only one of batch_data, query, or path.") := by
  have h1 : (get_batch_request_from_acceptable_arguments
      { batch_data := .int 1, query := .str "q" }).result
      = Except.error (PyErr.geTypeError "the first parameter, datasource_name, must be a str, not class NoneType") := rfl
  refine ⟨h1, ?_⟩
  rw [h1]
  simp

/-- C1 (amended): once a call reaches the mutual-exclusivity check — a
truthy batch_request is a BatchRequest and the effective datasource_name
(possibly extracted from it) is a string — then whenever two or more of
batch_data, query and path are simultaneously non-null, the call raises
the ValueError "Must provide only one of batch_data, query, or path.",
for all pairings of the three arguments. -/
theorem C1_exclusive_pairs (a : GbrArgs) (d : PyVal)
    (h1 : gbrEffectiveDs a = Except.ok d) (h2 : isStr d = true)
    (h3 : 2 ≤ gbrExclusivityCount a) :
    (get_batch_request_from_acceptable_arguments a).result
      = Except.error (PyErr.valueError "Must provide only one of batch_data, query, or path.") := by
  unfold get_batch_request_from_acceptable_arguments
  rw [h1]
  simp [h2, Nat.lt_of_lt_of_le Nat.one_lt_two h3]

/-- C1 witness: the amended theorem applied at a concrete call supplying
batch_data and query together with a valid datasource name. -/
theorem C1_exclusive_pairs_witness :
    2 ≤ gbrExclusivityCount { datasource_name := PyVal.str "s", batch_data := PyVal.int 1, query := PyVal.str "q" } ∧
    (get_batch_request_from_acceptable_arguments
      { datasource_name := PyVal.str "s", batch_data := PyVal.int 1, query := PyVal.str "q" }).result
      = Except.error (PyErr.valueError "Must provide only one of batch_data, query, or path.") :=
  ⟨by decide, C1_exclusive_pairs _ _ rfl rfl (by decide)⟩



/-- C2 (counterexample): a valid pre-built batch_request supplied together
with batch_data and query does not short-circuit — the exclusivity
ValueError is raised and the supplied object is not returned, refuting
"returned unchanged regardless of what other arguments were supplied". -/
theorem C2_counterexample :
    (get_batch_request_from_acceptable_arguments
      { batch_request := .req sampleRequest, batch_data := .int 1, query := .str "q" }).result
      = Except.error (PyErr.valueError "Must provide only one of batch_data, query, or path.")
    ∧ (get_batch_request_from_acceptable_arguments
      { batch_request := .req sampleRequest, batch_data := .int 1, query := .str "q" }).result
      ≠ Except.ok sampleRequest := by
  have h1 : (get_batch_request_from_acceptable_arguments
      { batch_request := .req sampleRequest, batch_data := .int 1, query := .str "q" }).result
      = Except.error (PyErr.valueError "Must provide only one of batch_data, query, or path.") := rfl
  refine ⟨h1, ?_⟩
  rw [h1]
  simp

/-- C2 (amended): a truthy non-BatchRequest batch_request raises a
TypeError; a supplied BatchRequest whose datasource name is a string is
returned unchanged — the identical object, skipping both branches —
provided the mutual-exclusivity and runtime-collision checks pass (they
run before the short-circuit return). -/
theorem C2_short_circuit (a : GbrArgs) :
    (∀ ty, a.batch_request = BRArg.other ty true →
      (get_batch_request_from_acceptable_arguments a).result
        = Except.error (PyErr.typeError ("batch_request must be an instance of BatchRequest object, not " ++ ty)))
    ∧ (∀ o, a.batch_request = BRArg.req o → isStr o.datasource_name = true →
        gbrExclusivityCount a ≤ 1 → collisionTest a = Except.ok false →
        (get_batch_request_from_acceptable_arguments a).result = Except.ok o) := by
  constructor
  · intro ty h
    unfold get_batch_request_from_acceptable_arguments gbrEffectiveDs
    rw [h]
    simp
  · intro o h hs hcnt hcol
    unfold get_batch_request_from_acceptable_arguments gbrEffectiveDs
    rw [h]
    simp [hs, Nat.not_lt.mpr hcnt, hcol]

/-- C2 witness: the amended theorem applied at a concrete call supplying a
pre-built request together with batch_data; the object comes back
unchanged. -/
theorem C2_short_circuit_witness :
    gbrExclusivityCount { batch_request := BRArg.req sampleRequest, batch_data := PyVal.int 1 } ≤ 1 ∧
    (get_batch_request_from_acceptable_arguments
      { batch_request := BRArg.req sampleRequest, batch_data := PyVal.int 1 }).result
      = Except.ok sampleRequest :=
  ⟨by decide, (C2_short_circuit _).2 sampleRequest rfl rfl (by decide) rfl⟩

/-- C3: with valid names and no other optional arguments, building a
request through the deprecated batch_identifiers alias and through
batch_filter_parameters from the same mapping yields the same result
object, the alias call succeeds with the deprecation warning logged (not
an error), and the two requests have equal to_json_dict and equal id. -/
theorem C3_identifier_alias (ds dc da : String) (hds : ds ≠ "") (hdc : dc ≠ "") (hda : da ≠ "")
    (v : PyVal) (hv : isNone v = false) :
    (get_batch_request_from_acceptable_arguments
      { datasource_name := .str ds, data_connector_name := .str dc,
        data_asset_name := .str da, batch_identifiers := v }).result
      = (get_batch_request_from_acceptable_arguments
      { datasource_name := .str ds, data_connector_name := .str dc,
        data_asset_name := .str da, batch_filter_parameters := v }).result
    ∧ (∃ o, (get_batch_request_from_acceptable_arguments
      { datasource_name := .str ds, data_connector_name := .str dc,
        data_asset_name := .str da, batch_identifiers := v }).result = Except.ok o)
    ∧ (get_batch_request_from_acceptable_arguments
      { datasource_name := .str ds, data_connector_name := .str dc,
        data_asset_name := .str da, batch_identifiers := v }).warned = true
    ∧ ∀ o1 o2,
        (get_batch_request_from_acceptable_arguments
          { datasource_name := .str ds, data_connector_name := .str dc,
            data_asset_name := .str da, batch_identifiers := v }).result = Except.ok o1 →
        (get_batch_request_from_acceptable_arguments
          { datasource_name := .str ds, data_connector_name := .str dc,
            data_asset_name := .str da, batch_filter_parameters := v }).result = Except.ok o2 →
        BatchRequestBase.to_json_dict o1 = BatchRequestBase.to_json_dict o2
          ∧ BatchRequestBase.id o1 = BatchRequestBase.id o2 := by
  have k1 : (get_batch_request_from_acceptable_arguments
      { datasource_name := .str ds, data_connector_name := .str dc,
        data_asset_name := .str da, batch_identifiers := v }).result
      = Except.ok (BRObject.mk false (.str ds) (.str dc) (.str da)
          (.iddict [("batch_filter_parameters", v), ("limit", .none), ("index", .none),
            ("custom_filter_function", .none)]) .none .none .none (.dict [])) := by
    unfold get_batch_request_from_acceptable_arguments
    simp [gbrEffectiveDs, gbrExclusivityCount, collisionTest, pyInCheck, catalogBranch,
      runtimeBranch, BatchRequest.init, BatchRequest._validate_init_parameters,
      bne_iff_ne, hds, hdc, hda, hv, pure, Except.pure, bind, Except.bind]
  have k2 : (get_batch_request_from_acceptable_arguments
      { datasource_name := .str ds, data_connector_name := .str dc,
        data_asset_name := .str da, batch_filter_parameters := v }).result
      = Except.ok (BRObject.mk false (.str ds) (.str dc) (.str da)
          (.iddict [("batch_filter_parameters", v), ("limit", .none), ("index", .none),
            ("custom_filter_function", .none)]) .none .none .none (.dict [])) := by
    unfold get_batch_request_from_acceptable_arguments
    simp [gbrEffectiveDs, gbrExclusivityCount, collisionTest, pyInCheck, catalogBranch,
      runtimeBranch, BatchRequest.init, BatchRequest._validate_init_parameters,
      bne_iff_ne, hds, hdc, hda, hv, pure, Except.pure, bind, Except.bind]
  have kw : (get_batch_request_from_acceptable_arguments
      { datasource_name := .str ds, data_connector_name := .str dc,
        data_asset_name := .str da, batch_identifiers := v }).warned = true := by
    unfold get_batch_request_from_acceptable_arguments
    simp [gbrEffectiveDs, gbrExclusivityCount, collisionTest, pyInCheck, catalogBranch,
      runtimeBranch, BatchRequest.init, BatchRequest._validate_init_parameters,
      bne_iff_ne, hds, hdc, hda, hv, pure, Except.pure, bind, Except.bind]
  refine ⟨k1.trans k2.symm, ⟨_, k1⟩, kw, ?_⟩
  intro o1 o2 h1 h2
  have e1 := k1.symm.trans h1
  have e2 := k2.symm.trans h2
  simp only [Except.ok.injEq] at e1 e2
  rw [← e1, ← e2]
  exact ⟨rfl, rfl⟩

/-- C3 witness: the alias equivalence at a concrete identifier mapping. -/
theorem C3_identifier_alias_witness :
    PyVal.str "s1" ≠ PyVal.none ∧
    (get_batch_request_from_acceptable_arguments
      { datasource_name := .str "s1", data_connector_name := .str "c1",
        data_asset_name := .str "a1", batch_identifiers := .dict [("a", .int 1)] }).result
      = (get_batch_request_from_acceptable_arguments
      { datasource_name := .str "s1", data_connector_name := .str "c1",
        data_asset_name := .str "a1", batch_filter_parameters := .dict [("a", .int 1)] }).result
    ∧ (get_batch_request_from_acceptable_arguments
      { datasource_name := .str "s1", data_connector_name := .str "c1",
        data_asset_name := .str "a1", batch_identifiers := .dict [("a", .int 1)] }).warned = true := by
  have h := C3_identifier_alias "s1" "c1" "a1" (by decide) (by decide) (by decide)
    (.dict [("a", .int 1)]) rfl
  exact ⟨by simp, h.1, h.2.2.1⟩

/-- C4: a successful BatchDefinition construction stores exactly the four
supplied identity fields; the id of a definition does not depend on
batch_spec_passthrough; permuting the insertion order of the identifiers
mapping leaves the id unchanged (the content hash is order-independent);
and two definitions are equal (per the source's same-class equality)
exactly when their ids match. -/
theorem C4_id_determinism :
    (∀ ds dc da bi p o, BatchDefinition.init ds dc da bi p = Except.ok o →
        o.datasource_name = ds ∧ o.data_connector_name = dc ∧ o.data_asset_name = da
          ∧ o.batch_identifiers = bi)
    ∧ (∀ ds dc da bi p p', BatchDefinition.id (BDObject.mk ds dc da bi p)
        = BatchDefinition.id (BDObject.mk ds dc da bi p'))
    ∧ (∀ ds dc da es es' p p', es.Perm es' →
        BatchDefinition.id (BDObject.mk ds dc da (.iddict es) p)
          = BatchDefinition.id (BDObject.mk ds dc da (.iddict es') p'))
    ∧ (∀ x y : BDObject, BatchDefinition.beq x y = true ↔ BatchDefinition.id x = BatchDefinition.id y) := by
  refine ⟨?_, ?_, ?_, ?_⟩
  · intro ds dc da bi p o h
    unfold BatchDefinition.init at h
    cases hval : BatchDefinition._validate_batch_definition ds dc da bi with
    | error e => rw [hval] at h; simp [bind, Except.bind] at h
    | ok u =>
      rw [hval] at h
      simp only [bind, Except.bind] at h
      by_cases hb : isIDDictExact bi = true
      · simp only [hb, if_true, Except.ok.injEq] at h
        rw [← h]
        exact ⟨rfl, rfl, rfl, rfl⟩
      · simp only [Bool.not_eq_true] at hb
        simp [hb] at h
  · intro ds dc da bi p p'
    rfl
  · intro ds dc da es es' p p' hperm
    have hp : (convertEntries es).Perm (convertEntries es') := by
      rw [convertEntries_eq_map, convertEntries_eq_map]
      exact hperm.map _
    have hh := hashEntries_perm _ _ hp
    simp [BatchDefinition.id, BatchDefinition.to_json_dict, toId, convertToJsonSerializable,
      convertEntries, hashEntries, hashVal, hh]
  · intro x y
    simp [BatchDefinition.beq]

/-- C4 witness: the permutation/passthrough conjunct applied to a concrete
two-entry identifiers mapping written in both insertion orders, with
different passthroughs. -/
theorem C4_id_determinism_witness :
    List.Perm [("a", PyVal.int 1), ("b", PyVal.int 2)] [("b", PyVal.int 2), ("a", PyVal.int 1)] ∧
    BatchDefinition.id (BDObject.mk (.str "s") (.str "c") (.str "d")
        (.iddict [("a", PyVal.int 1), ("b", PyVal.int 2)]) .none)
      = BatchDefinition.id (BDObject.mk (.str "s") (.str "c") (.str "d")
        (.iddict [("b", PyVal.int 2), ("a", PyVal.int 1)]) (.dict [("x", PyVal.int 5)])) :=
  ⟨List.Perm.swap _ _ _, C4_id_determinism.2.2.1 _ _ _ _ _ _ _ (List.Perm.swap _ _ _)⟩





/-- Filtering out an absent key changes nothing. -/
theorem filter_eq_self_of_dget_none (es : List (String × PyVal)) (k : String)
    (h : dget es k = Option.none) : es.filter (fun kv => kv.1 != k) = es := by
  induction es with
  | nil => rfl
  | cons kv t ih =>
    obtain ⟨k₀, v₀⟩ := kv
    rw [dget_cons] at h
    by_cases h0 : k₀ = k
    · simp [h0] at h
    · simp only [h0, if_false] at h
      simp [List.filter_cons, bne_iff_ne, h0, ih h]

/-- On clean connector queries the source's query projection agrees with
the spec's description. -/
theorem processDcq_of_clean (q : PyVal) (h : cffClean q) :
    BatchRequestBase.processDcq q = Except.ok (specReplaceFilterFn q) := by
  rcases h with h | ⟨es, hq, hc⟩
  · subst h; rfl
  · rcases hq with hq | hq <;> subst hq <;>
      rcases hc with hc | hc | ⟨n, hc⟩ <;>
      simp [BatchRequestBase.processDcq, specReplaceFilterFn, hc]

/-- The source's runtime-parameters projection agrees with the spec's
description on every entry list. -/
theorem processRp_eq_spec (es : List (String × PyVal)) :
    BatchRequestBase.processRp es = specRuntimeParams es := by
  unfold BatchRequestBase.processRp specRuntimeParams
  cases h : dget es "batch_data" with
  | none => simp [h, filter_eq_self_of_dget_none es _ h]
  | some v => simp [h]

/-- C5: for every request object whose connector query and runtime
parameters have the shapes the source handles (mappings; a callable or
absent filter function), `BatchRequestBase.to_json_dict` returns exactly
the mapping the specification describes: the three names and the
connector query with the filter callable replaced by its name,
batch_spec_passthrough and limit only when non-null, batch_identifiers
when present, runtime_parameters with the batch_data payload replaced by
its type's name and other entries verbatim, and every falsy-valued key
stripped. -/
theorem C5_to_json_dict_spec (o : BRObject)
    (h1 : cffClean o.data_connector_query) (h2 : rpShape o.runtime_parameters) :
    BatchRequestBase.to_json_dict o = Except.ok (specBatchRequestJson o) := by
  unfold BatchRequestBase.to_json_dict specBatchRequestJson
  rw [processDcq_of_clean _ h1]
  simp only [bind, Except.bind]
  rcases h2 with h2 | ⟨es, h2 | h2⟩ <;> rw [h2] <;>
    by_cases hb : isNone o.batch_spec_passthrough <;>
    by_cases hl : isNone o.limit <;>
    by_cases hi : isNone o.batch_identifiers <;>
    simp [hb, hl, hi, processRp_eq_spec, filterPropertiesDict, pure, Except.pure]

/-- C5 witness: the equality at a concrete object exercising the filter
callable, a batch_data payload, a falsy passthrough and a limit. -/
theorem C5_to_json_dict_spec_witness :
    cffClean (PyVal.dict [("custom_filter_function", PyVal.func "my_filter"), ("index", PyVal.none)]) ∧
    BatchRequestBase.to_json_dict (BRObject.mk true (.str "s") (.str "c") (.str "a")
        (.dict [("custom_filter_function", PyVal.func "my_filter"), ("index", PyVal.none)])
        (.int 3) (.dict [("batch_data", .obj "DataFrame" 1), ("q", .str "sql")])
        (.dict [("k", .str "v")]) (.dict []))
      = Except.ok (specBatchRequestJson (BRObject.mk true (.str "s") (.str "c") (.str "a")
        (.dict [("custom_filter_function", PyVal.func "my_filter"), ("index", PyVal.none)])
        (.int 3) (.dict [("batch_data", .obj "DataFrame" 1), ("q", .str "sql")])
        (.dict [("k", .str "v")]) (.dict []))) := by
  have hc : cffClean (PyVal.dict [("custom_filter_function", PyVal.func "my_filter"), ("index", PyVal.none)]) :=
    Or.inr ⟨_, Or.inl rfl, Or.inr (Or.inr ⟨"my_filter", rfl⟩)⟩
  exact ⟨hc, C5_to_json_dict_spec _ hc (Or.inr ⟨_, Or.inl rfl⟩)⟩

/-- C6 (counterexample): construction succeeds with the empty string and
with the integer 0 as datasource_name — falsy values skip both the
None check and the type check — so the invariant "the three name fields
are non-empty strings" and the promise "a non-string name raises a type
error" both fail. -/
theorem C6_counterexample :
    BatchDefinition.init (.str "") (.str "c") (.str "a") (.iddict [("k", .str "v")]) .none
      = Except.ok (BDObject.mk (.str "") (.str "c") (.str "a") (.iddict [("k", .str "v")]) .none)
    ∧ BatchDefinition.init (.int 0) (.str "c") (.str "a") (.iddict [("k", .str "v")]) .none
      = Except.ok (BDObject.mk (.int 0) (.str "c") (.str "a") (.iddict [("k", .str "v")]) .none) :=
  ⟨rfl, rfl⟩

/-- A truthy value is not None. -/
theorem isNone_of_truthy {v : PyVal} (h : truthy v = true) : isNone v = false := by
  cases v <;> simp_all

/-- What passing `_validate_batch_definition` guarantees about the
names. -/
theorem bd_validate_ok (ds dc da bi : PyVal)
    (h : BatchDefinition._validate_batch_definition ds dc da bi = Except.ok ()) :
    isNone ds = false ∧ isNone dc = false ∧ isNone da = false := by
  unfold BatchDefinition._validate_batch_definition at h
  repeat' split at h
  all_goals simp_all

/-- C6 (amended): after a successful construction the three name fields
are non-None (not necessarily non-empty) and batch_identifiers is exactly
an IDDict; a None name raises the field's ValueError; a truthy non-string
name raises a TypeError naming its type; truthy non-IDDict identifiers
raise a TypeError; and falsy or otherwise non-IDDict identifiers that
slip past the truthiness-guarded check are stopped by the constructor's
assertion (an AssertionError, not a TypeError). -/
theorem C6_validation :
    (∀ ds dc da bi p o, BatchDefinition.init ds dc da bi p = Except.ok o →
        isNone o.datasource_name = false ∧ isNone o.data_connector_name = false
          ∧ isNone o.data_asset_name = false ∧ isIDDictExact o.batch_identifiers = true)
    ∧ (∀ dc da bi p, BatchDefinition.init .none dc da bi p
        = Except.error (.valueError "A valid datasource must be specified."))
    ∧ (∀ ds dc da bi p, truthy ds = true → isStr ds = false →
        BatchDefinition.init ds dc da bi p
          = Except.error (.typeError ("The type of an datasource name must be a string. The type given is "
              ++ pyTypeName ds ++ ", which is illegal.")))
    ∧ (∀ ds da bi p, isNone ds = false → (truthy ds = false ∨ isStr ds = true) →
        BatchDefinition.init ds .none da bi p
          = Except.error (.valueError "A valid data_connector must be specified."))
    ∧ (∀ ds dc da bi p, isNone ds = false → (truthy ds = false ∨ isStr ds = true) →
        truthy dc = true → isStr dc = false →
        BatchDefinition.init ds dc da bi p
          = Except.error (.typeError ("The type of a data_connector name must be a string. The type given is "
              ++ pyTypeName dc ++ ", which is illegal.")))
    ∧ (∀ ds dc bi p, isNone ds = false → (truthy ds = false ∨ isStr ds = true) →
        isNone dc = false → (truthy dc = false ∨ isStr dc = true) →
        BatchDefinition.init ds dc .none bi p
          = Except.error (.valueError "A valid data_asset_name must be specified."))
    ∧ (∀ ds dc da bi p, isNone ds = false → (truthy ds = false ∨ isStr ds = true) →
        isNone dc = false → (truthy dc = false ∨ isStr dc = true) →
        truthy da = true → isStr da = false →
        BatchDefinition.init ds dc da bi p
          = Except.error (.typeError ("The type of a data_asset name must be a string. The type given is "
              ++ pyTypeName da ++ ", which is illegal.")))
    ∧ (∀ ds dc da bi p, isNone ds = false → (truthy ds = false ∨ isStr ds = true) →
        isNone dc = false → (truthy dc = false ∨ isStr dc = true) →
        isNone da = false → (truthy da = false ∨ isStr da = true) →
        truthy bi = true → isIDDictExact bi = false →
        BatchDefinition.init ds dc da bi p
          = Except.error (.typeError ("The type of batch_identifiers must be an IDDict object. The type given is "
              ++ pyTypeName bi ++ ", which is illegal.")))
    ∧ (∀ ds dc da bi p, isNone ds = false → (truthy ds = false ∨ isStr ds = true) →
        isNone dc = false → (truthy dc = false ∨ isStr dc = true) →
        isNone da = false → (truthy da = false ∨ isStr da = true) →
        truthy bi = false → isIDDictExact bi = false →
        BatchDefinition.init ds dc da bi p = Except.error .assertionError) := by
  refine ⟨?_, ?_, ?_, ?_, ?_, ?_, ?_, ?_, ?_⟩
  · intro ds dc da bi p o h
    unfold BatchDefinition.init at h
    cases hval : BatchDefinition._validate_batch_definition ds dc da bi with
    | error e => rw [hval] at h; simp [bind, Except.bind] at h
    | ok u =>
      rw [hval] at h
      simp only [bind, Except.bind] at h
      by_cases hb : isIDDictExact bi = true
      · simp only [hb, if_true, Except.ok.injEq] at h
        obtain ⟨h1, h2, h3⟩ := bd_validate_ok ds dc da bi (by cases u; exact hval)
        rw [← h]
        exact ⟨h1, h2, h3, hb⟩
      · simp only [Bool.not_eq_true] at hb
        simp [hb] at h
  · intro dc da bi p
    simp [BatchDefinition.init, BatchDefinition._validate_batch_definition, bind, Except.bind]
  · intro ds dc da bi p h1 h2
    simp [BatchDefinition.init, BatchDefinition._validate_batch_definition, bind, Except.bind,
      h1, h2, isNone_of_truthy h1]
  · intro ds da bi p h1 h2
    rcases h2 with h2 | h2 <;>
      simp [BatchDefinition.init, BatchDefinition._validate_batch_definition, bind, Except.bind, h1, h2]
  · intro ds dc da bi p h1 h2 h3 h4
    rcases h2 with h2 | h2 <;>
      simp [BatchDefinition.init, BatchDefinition._validate_batch_definition, bind, Except.bind,
        h1, h2, h3, h4, isNone_of_truthy h3]
  · intro ds dc bi p h1 h2 h3 h4
    rcases h2 with h2 | h2 <;> rcases h4 with h4 | h4 <;>
      simp [BatchDefinition.init, BatchDefinition._validate_batch_definition, bind, Except.bind,
        h1, h2, h3, h4]
  · intro ds dc da bi p h1 h2 h3 h4 h5 h6
    rcases h2 with h2 | h2 <;> rcases h4 with h4 | h4 <;>
      simp [BatchDefinition.init, BatchDefinition._validate_batch_definition, bind, Except.bind,
        h1, h2, h3, h4, h5, h6, isNone_of_truthy h5]
  · intro ds dc da bi p h1 h2 h3 h4 h5 h6 h7 h8
    rcases h2 with h2 | h2 <;> rcases h4 with h4 | h4 <;> rcases h6 with h6 | h6 <;>
      simp [BatchDefinition.init, BatchDefinition._validate_batch_definition, bind, Except.bind,
        h1, h2, h3, h4, h5, h6, h7, h8]
  · intro ds dc da bi p h1 h2 h3 h4 h5 h6 h7 h8
    rcases h2 with h2 | h2 <;> rcases h4 with h4 | h4 <;> rcases h6 with h6 | h6 <;>
      simp [BatchDefinition.init, BatchDefinition._validate_batch_definition, bind, Except.bind,
        h1, h2, h3, h4, h5, h6, h7, h8]

/-- C6 witness: the truthy-non-string conjunct at a concrete integer
datasource name. -/
theorem C6_validation_witness :
    truthy (PyVal.int 5) = true ∧ isStr (PyVal.int 5) = false ∧
    BatchDefinition.init (PyVal.int 5) (.str "c") (.str "a") (.iddict [("k", .str "v")]) .none
      = Except.error (.typeError ("The type of an datasource name must be a string. The type given is "
          ++ pyTypeName (PyVal.int 5) ++ ", which is illegal.")) :=
  ⟨by decide, rfl, C6_validation.2.2.1 (PyVal.int 5) (.str "c") (.str "a")
    (.iddict [("k", .str "v")]) .none (by decide) rfl⟩

/-- C7 (counterexample): a given falsy non-mapping batch_spec_passthrough
(the empty string) is accepted — construction succeeds — refuting "fails
with a type error if batch_spec_passthrough is given and is not a
mapping". -/
theorem C7_counterexample :
    RuntimeBatchRequest.init (.str "d") (.str "c") (.str "a")
        (.dict [("query", .str "q")]) (.dict [("k", .str "v")]) (.str "")
      = Except.ok (BRObject.mk true (.str "d") (.str "c") (.str "a") .none .none
          (.dict [("query", .str "q")]) (.dict [("k", .str "v")]) (.str "")) := rfl

/-- C7 (amended): RuntimeBatchRequest construction first runs the parent
name validation (with data_connector_query and limit absent), then fails
with a TypeError unless runtime_parameters is a non-empty mapping, then
unless batch_identifiers is a non-empty mapping, then if
batch_spec_passthrough is truthy and not a mapping; a successful
construction stores exactly the supplied runtime_parameters and
batch_identifiers, with no connector query and no limit. -/
theorem C7_runtime_validation :
    (∀ ds dc da rp bi bsp, (truthy ds && isStr ds) = false →
        RuntimeBatchRequest.init ds dc da rp bi bsp
          = Except.error (.typeError ("The type of an datasource name must be a string. The type given is "
              ++ pyTypeName ds ++ ", which is illegal.")))
    ∧ (∀ ds dc da rp bi bsp, (truthy ds && isStr ds) = true → (truthy dc && isStr dc) = true →
        (truthy da && isStr da) = true → (truthy rp && isDictInst rp) = false →
        RuntimeBatchRequest.init ds dc da rp bi bsp
          = Except.error (.typeError ("The type for runtime_parameters must be a dict object. The type given is "
              ++ pyTypeName rp ++ ", which is illegal.")))
    ∧ (∀ ds dc da rp bi bsp, (truthy ds && isStr ds) = true → (truthy dc && isStr dc) = true →
        (truthy da && isStr da) = true → (truthy rp && isDictInst rp) = true →
        (truthy bi && isDictInst bi) = false →
        RuntimeBatchRequest.init ds dc da rp bi bsp
          = Except.error (.typeError ("The type for batch_identifiers must be a dict object. The type given is "
              ++ pyTypeName bi ++ ", which is illegal.")))
    ∧ (∀ ds dc da rp bi bsp, (truthy ds && isStr ds) = true → (truthy dc && isStr dc) = true →
        (truthy da && isStr da) = true → (truthy rp && isDictInst rp) = true →
        (truthy bi && isDictInst bi) = true → truthy bsp = true → isDictInst bsp = false →
        RuntimeBatchRequest.init ds dc da rp bi bsp
          = Except.error (.typeError ("The type for batch_spec_passthrough must be a dict object. The type given is "
              ++ pyTypeName bsp ++ ", which is illegal.")))
    ∧ (∀ ds dc da rp bi bsp o, RuntimeBatchRequest.init ds dc da rp bi bsp = Except.ok o →
        o = BRObject.mk true ds dc da .none .none rp bi bsp) := by
  refine ⟨?_, ?_, ?_, ?_, ?_⟩
  · intro ds dc da rp bi bsp h1
    simp [RuntimeBatchRequest.init, BatchRequest.init, BatchRequest._validate_init_parameters,
      bind, Except.bind, h1]
  · intro ds dc da rp bi bsp h1 h2 h3 h4
    simp [RuntimeBatchRequest.init, BatchRequest.init, BatchRequest._validate_init_parameters,
      BatchRequest._validate_runtime_batch_request_specific_init_parameters,
      bind, Except.bind, h1, h2, h3, h4]
  · intro ds dc da rp bi bsp h1 h2 h3 h4 h5
    simp [RuntimeBatchRequest.init, BatchRequest.init, BatchRequest._validate_init_parameters,
      BatchRequest._validate_runtime_batch_request_specific_init_parameters,
      bind, Except.bind, h1, h2, h3, h4, h5]
  · intro ds dc da rp bi bsp h1 h2 h3 h4 h5 h6 h7
    simp [RuntimeBatchRequest.init, BatchRequest.init, BatchRequest._validate_init_parameters,
      BatchRequest._validate_runtime_batch_request_specific_init_parameters,
      bind, Except.bind, h1, h2, h3, h4, h5, h6, h7]
  · intro ds dc da rp bi bsp o h
    unfold RuntimeBatchRequest.init at h
    cases hb : BatchRequest.init ds dc da .none .none bsp with
    | error e => rw [hb] at h; simp [bind, Except.bind] at h
    | ok base =>
      have hbase : base = BRObject.mk false ds dc da .none .none .none .none bsp := by
        unfold BatchRequest.init at hb
        cases hv : BatchRequest._validate_init_parameters ds dc da .none .none with
        | error e => rw [hv] at hb; simp [bind, Except.bind] at hb
        | ok u =>
          rw [hv] at hb
          simp only [bind, Except.bind, Except.ok.injEq] at hb
          exact hb.symm
      rw [hb] at h
      simp only [bind, Except.bind] at h
      cases hr : BatchRequest._validate_runtime_batch_request_specific_init_parameters rp bi bsp with
      | error e => rw [hr] at h; simp at h
      | ok u =>
        rw [hr] at h
        simp only [Except.ok.injEq] at h
        rw [← h, hbase]

/-- C7 witness: the empty-identifiers conjunct at a concrete call. -/
theorem C7_runtime_validation_witness :
    (truthy (PyVal.dict [("batch_data", PyVal.obj "DataFrame" 0)]) && isDictInst (PyVal.dict [("batch_data", PyVal.obj "DataFrame" 0)])) = true ∧
    (truthy (PyVal.dict ([] : List (String × PyVal))) && isDictInst (PyVal.dict ([] : List (String × PyVal)))) = false ∧
    RuntimeBatchRequest.init (.str "d") (.str "c") (.str "a")
        (.dict [("batch_data", PyVal.obj "DataFrame" 0)]) (.dict []) .none
      = Except.error (.typeError ("The type for batch_identifiers must be a dict object. The type given is "
          ++ pyTypeName (PyVal.dict ([] : List (String × PyVal))) ++ ", which is illegal.")) :=
  ⟨by decide, by decide, C7_runtime_validation.2.2.1 (.str "d") (.str "c") (.str "a")
    (.dict [("batch_data", PyVal.obj "DataFrame" 0)]) (.dict []) .none
    (by decide) (by decide) (by decide) (by decide) (by decide)⟩

/-- C8: deep-copying a RuntimeBatchRequest whose runtime_parameters holds
a batch_data payload leaves the very same payload object (same address)
in both the copy's and the original's mapping, gives the copy a fresh
batch_identifiers dict distinct from the original's, makes mutation of
either identifiers dict invisible through the other, and falls back to an
ordinary full deep copy when batch_data is absent. -/
theorem C8_deepcopy_contract (w : World) (r : RBRRef) (ty : String) (pa : Nat)
    (hwf : World.wf w r)
    (hbd : dget (w.mem r.rpAddr) "batch_data" = some (.obj ty pa)) :
    dget ((RuntimeBatchRequest.deepcopy w r).1.mem (RuntimeBatchRequest.deepcopy w r).2.rpAddr)
        "batch_data" = some (.obj ty pa)
    ∧ dget ((RuntimeBatchRequest.deepcopy w r).1.mem r.rpAddr) "batch_data" = some (.obj ty pa)
    ∧ (RuntimeBatchRequest.deepcopy w r).2.biAddr ≠ r.biAddr
    ∧ (∀ k v, (World.setKey (RuntimeBatchRequest.deepcopy w r).1
          (RuntimeBatchRequest.deepcopy w r).2.biAddr k v).mem r.biAddr
        = (RuntimeBatchRequest.deepcopy w r).1.mem r.biAddr)
    ∧ (∀ k v, (World.setKey (RuntimeBatchRequest.deepcopy w r).1 r.biAddr k v).mem
          (RuntimeBatchRequest.deepcopy w r).2.biAddr
        = (RuntimeBatchRequest.deepcopy w r).1.mem (RuntimeBatchRequest.deepcopy w r).2.biAddr)
    ∧ (∀ w' r', hasKey (w'.mem r'.rpAddr) "batch_data" = false →
        RuntimeBatchRequest.deepcopy w' r' = copyDeepcopy w' r') := by
  have hkey : hasKey (w.mem r.rpAddr) "batch_data" = true := by
    rw [hasKey_eq_isSome, hbd]; rfl
  obtain ⟨h1, h2, h3⟩ := hwf
  have ha1 : r.rpAddr ≠ 2 * w.next := by omega
  have ha2 : r.rpAddr ≠ 2 * w.next + 1 := by omega
  have ha3 : r.biAddr ≠ 2 * w.next := by omega
  have ha4 : r.biAddr ≠ 2 * w.next + 1 := by omega
  have hbd' : (dget (w.mem r.rpAddr) "batch_data").getD .none = PyVal.obj ty pa := by
    rw [hbd]; rfl
  refine ⟨?_, ?_, ?_, ?_, ?_, ?_⟩
  · simp only [RuntimeBatchRequest.deepcopy, hkey, if_true]
    simp [hbd', dget_dset_self]
  · simp only [RuntimeBatchRequest.deepcopy, hkey, if_true]
    simp [ha1, ha2, h3, hbd', dget_dset_self]
  · simp only [RuntimeBatchRequest.deepcopy, hkey, if_true]
    simp [Ne.symm ha4]
  · intro k v
    simp only [RuntimeBatchRequest.deepcopy, hkey, if_true, World.setKey]
    simp [ha4]
  · intro k v
    simp only [RuntimeBatchRequest.deepcopy, hkey, if_true, World.setKey]
    simp [Ne.symm ha4, h3]
  · intro w' r' hk
    simp [RuntimeBatchRequest.deepcopy, hk]

/-- C9 (counterexample): a successful call that merges query into a
caller-supplied truthy runtime_parameters mapping mutates that mapping in
place — afterwards the caller's dict has gained the "query" entry — so
the call is not free of caller-visible side effects. -/
theorem C9_counterexample :
    (get_batch_request_from_acceptable_arguments
      { datasource_name := .str "s1", data_connector_name := .str "c1", data_asset_name := .str "a1",
        batch_identifiers := .dict [("id", .int 1)],
        runtime_parameters := .dict [("k", .int 1)], query := .str "SELECT 1" }).rpAfter
      = PyVal.dict [("k", .int 1), ("query", .str "SELECT 1")]
    ∧ PyVal.dict [("k", .int 1), ("query", .str "SELECT 1")] ≠ PyVal.dict [("k", .int 1)]
    ∧ (∃ o, (get_batch_request_from_acceptable_arguments
      { datasource_name := .str "s1", data_connector_name := .str "c1", data_asset_name := .str "a1",
        batch_identifiers := .dict [("id", .int 1)],
        runtime_parameters := .dict [("k", .int 1)], query := .str "SELECT 1" }).result
      = Except.ok o) := by
  refine ⟨rfl, ?_, ⟨_, rfl⟩⟩
  intro h
  have := congrArg (fun v => (entriesOf v).length) h
  simp [entriesOf] at this



/-- Unfolding the TypeError-result discriminator. -/
theorem isTypeErrorResult_iff {α : Type} (r : Except PyErr α) :
    isTypeErrorResult r = true ↔ ∃ m, r = Except.error (PyErr.typeError m) := by
  cases r with
  | ok o => simp [isTypeErrorResult]
  | error e => cases e <;> simp [isTypeErrorResult]

/-- Item assignment fails only with a TypeError. -/
theorem setItem_typeError_of_error (d : PyVal) (k : String) (v : PyVal) (e : PyErr)
    (h : setItem d k v = Except.error e) :
    isTypeErrorResult (Except.error (α := BRObject) e) = true := by
  cases d <;> simp [setItem] at h <;> simp [← h, isTypeErrorResult]

/-- RuntimeBatchRequest construction with an empty identifiers mapping
always raises some TypeError, whatever the other arguments. -/
theorem rbr_init_empty_bi (ds dc da rp bsp : PyVal) :
    isTypeErrorResult (RuntimeBatchRequest.init ds dc da rp (.dict []) bsp) = true := by
  unfold RuntimeBatchRequest.init BatchRequest.init BatchRequest._validate_init_parameters
    BatchRequest._validate_runtime_batch_request_specific_init_parameters
  by_cases hd : (truthy ds && isStr ds) = true <;>
  by_cases hc : (truthy dc && isStr dc) = true <;>
  by_cases ha : (truthy da && isStr da) = true <;>
  by_cases hr : (truthy rp && isDictInst rp) = true <;>
  simp [hd, hc, ha, hr, bind, Except.bind, isTypeErrorResult]

/-- C10: every call that reaches the runtime branch with
batch_identifiers None and no extra keyword arguments raises a TypeError:
the empty kwargs dict becomes the identifiers and RuntimeBatchRequest
rejects an empty identifiers mapping (any earlier failure inside the
branch is a TypeError as well). -/
theorem C10_runtime_empty_identifiers (a : GbrArgs) (d : PyVal)
    (h1 : gbrEffectiveDs a = Except.ok d) (h2 : isStr d = true)
    (h3 : gbrExclusivityCount a ≤ 1) (h4 : collisionTest a = Except.ok false)
    (h5 : a.batch_request = BRArg.absent)
    (h6 : (!isNone a.batch_data || truthy a.query || truthy a.path
            || truthy a.runtime_parameters) = true)
    (h7 : a.batch_identifiers = .none) (h8 : a.kwargs = []) :
    ∃ m, (get_batch_request_from_acceptable_arguments a).result
      = Except.error (PyErr.typeError m) := by
  rw [← isTypeErrorResult_iff]
  unfold get_batch_request_from_acceptable_arguments
  rw [h1]
  simp only [h2, h4, h5, h6, Bool.not_true, Bool.false_eq_true, if_false, if_true]
  rw [if_neg (Nat.not_lt.mpr h3)]
  unfold runtimeBranch
  rw [h7, h8]
  simp only [isNone_none, if_true]
  by_cases hbd : (!isNone a.batch_data) = true
  · simp only [hbd, if_true]
    cases hsi : setItem (if truthy a.runtime_parameters = true then a.runtime_parameters
        else PyVal.dict []) "batch_data" a.batch_data with
    | error e => simpa [hsi] using setItem_typeError_of_error _ _ _ _ hsi
    | ok rpM => simpa [hsi] using (rbr_init_empty_bi d a.data_connector_name a.data_asset_name
        rpM a.batch_spec_passthrough)
  · simp only [hbd, if_false]
    by_cases hq : (!isNone a.query) = true
    · simp only [hq, if_true]
      cases hsi : setItem (if truthy a.runtime_parameters = true then a.runtime_parameters
          else PyVal.dict []) "query" a.query with
      | error e => simpa [hsi] using setItem_typeError_of_error _ _ _ _ hsi
      | ok rpM => simpa [hsi] using (rbr_init_empty_bi d a.data_connector_name a.data_asset_name
          rpM a.batch_spec_passthrough)
    · simp only [hq, if_false]
      by_cases hp : (!isNone a.path) = true
      · simp only [hp, if_true]
        cases hsi : setItem (if truthy a.runtime_parameters = true then a.runtime_parameters
            else PyVal.dict []) "path" a.path with
        | error e => simpa [hsi] using setItem_typeError_of_error _ _ _ _ hsi
        | ok rpM => simpa [hsi] using (rbr_init_empty_bi d a.data_connector_name a.data_asset_name
            rpM a.batch_spec_passthrough)
      · simp only [hp, if_false]
        simpa using (rbr_init_empty_bi d a.data_connector_name a.data_asset_name
          (if truthy a.runtime_parameters = true then a.runtime_parameters else PyVal.dict [])
          a.batch_spec_passthrough)

/-- C10 witness: the theorem at a concrete call supplying only
batch_data. -/
theorem C10_runtime_empty_identifiers_witness :
    (!isNone (PyVal.obj "DataFrame" 0) || truthy PyVal.none || truthy PyVal.none
        || truthy PyVal.none) = true ∧
    ∃ m, (get_batch_request_from_acceptable_arguments
      { datasource_name := .str "s1", data_connector_name := .str "c1", data_asset_name := .str "a1",
        batch_data := .obj "DataFrame" 0 }).result = Except.error (PyErr.typeError m) :=
  ⟨rfl, C10_runtime_empty_identifiers
    { datasource_name := .str "s1", data_connector_name := .str "c1", data_asset_name := .str "a1",
      batch_data := .obj "DataFrame" 0 }
    (.str "s1") rfl rfl (by decide) rfl rfl rfl rfl rfl⟩





/-- C8 witness: the contract at a concrete world holding a DataFrame
payload. -/
theorem C8_deepcopy_contract_witness :
    World.wf sampleWorld sampleRef
    ∧ dget ((RuntimeBatchRequest.deepcopy sampleWorld sampleRef).1.mem
        (RuntimeBatchRequest.deepcopy sampleWorld sampleRef).2.rpAddr) "batch_data"
      = some (.obj "DataFrame" 7)
    ∧ (RuntimeBatchRequest.deepcopy sampleWorld sampleRef).2.biAddr ≠ sampleRef.biAddr :=
  ⟨⟨by decide, by decide, by decide⟩,
   (C8_deepcopy_contract sampleWorld sampleRef "DataFrame" 7
      ⟨by decide, by decide, by decide⟩ rfl).1,
   (C8_deepcopy_contract sampleWorld sampleRef "DataFrame" 7
      ⟨by decide, by decide, by decide⟩ rfl).2.2.1⟩

/-- C9 (amended): the reconciliation function leaves the caller's
runtime_parameters mapping unchanged whenever it is falsy, and mutates it
in place to exactly the merged mapping when it is a truthy dict and the
runtime branch is reached; duplication leaves the original instance's
runtime_parameters mapping-content (the batch_data entry re-inserted at
the end) and its batch_identifiers dict unchanged. -/
theorem C9_frame_conditions :
    (∀ a : GbrArgs, truthy a.runtime_parameters = false →
        (get_batch_request_from_acceptable_arguments a).rpAfter = a.runtime_parameters)
    ∧ (∀ (a : GbrArgs) (es : List (String × PyVal)) (d : PyVal),
        a.runtime_parameters = .dict es → truthy a.runtime_parameters = true →
        gbrEffectiveDs a = Except.ok d → isStr d = true →
        gbrExclusivityCount a ≤ 1 → collisionTest a = Except.ok false →
        a.batch_request = BRArg.absent →
        (get_batch_request_from_acceptable_arguments a).rpAfter
          = .dict (if !isNone a.batch_data then dset es "batch_data" a.batch_data
              else if !isNone a.query then dset es "query" a.query
              else if !isNone a.path then dset es "path" a.path
              else es))
    ∧ (∀ (w : World) (r : RBRRef) (ty : String) (pa : Nat), World.wf w r →
        dget (w.mem r.rpAddr) "batch_data" = some (.obj ty pa) →
        (∀ k', dget ((RuntimeBatchRequest.deepcopy w r).1.mem r.rpAddr) k'
            = dget (w.mem r.rpAddr) k')
        ∧ (RuntimeBatchRequest.deepcopy w r).1.mem r.biAddr = w.mem r.biAddr) := by
  refine ⟨?_, ?_, ?_⟩
  · intro a h
    unfold get_batch_request_from_acceptable_arguments runtimeBranch catalogBranch
    simp only [h, Bool.false_eq_true, if_false]
    repeat' split
    all_goals rfl
  · intro a es d hrp htr h1 h2 h3 h4 h5
    rw [hrp] at htr
    unfold get_batch_request_from_acceptable_arguments
    rw [h1]
    simp only [h2, h4, h5, Bool.not_true, Bool.false_eq_true, if_false, if_true]
    rw [if_neg (Nat.not_lt.mpr h3)]
    have h6 : (!isNone a.batch_data || truthy a.query || truthy a.path
        || truthy a.runtime_parameters) = true := by
      simp [hrp, htr]
    rw [if_pos h6]
    unfold runtimeBranch
    rw [hrp]
    simp only [htr, if_true]
    by_cases hbd : (!isNone a.batch_data) = true
    · simp [hbd, setItem]
    · by_cases hq : (!isNone a.query) = true
      · simp [hbd, hq, setItem]
      · by_cases hp : (!isNone a.path) = true
        · simp [hbd, hq, hp, setItem]
        · simp [hbd, hq, hp, setItem]
  · intro w r ty pa hwf hbd
    obtain ⟨hh1, hh2, hh3⟩ := hwf
    have hkey : hasKey (w.mem r.rpAddr) "batch_data" = true := by
      rw [hasKey_eq_isSome, hbd]; rfl
    have ha1 : r.rpAddr ≠ 2 * w.next := by omega
    have ha2 : r.rpAddr ≠ 2 * w.next + 1 := by omega
    have ha3 : r.biAddr ≠ 2 * w.next := by omega
    have ha4 : r.biAddr ≠ 2 * w.next + 1 := by omega
    constructor
    · intro k'
      simp only [RuntimeBatchRequest.deepcopy, hkey, if_true]
      simp only [if_neg ha1, if_neg ha2, if_pos rfl]
      by_cases hk : k' = "batch_data"
      · subst hk
        rw [dget_dset_self, hbd]
        rfl
      · rw [dget_dset_ne _ _ _ _ hk, dget_dpop_ne _ _ _ hk]
    · simp only [RuntimeBatchRequest.deepcopy, hkey, if_true]
      simp [ha3, ha4, Ne.symm hh3]
